import Mathlib

/-!
Verification development for the get-quizzed daily-quiz lambda.

The definitions below are a shallow embedding of the orchestration code in
the repository's lambda handler (the current pipeline revision with the
STAR/coding flow, plus the earlier revision where noted):

* `cleanResponse` embeds the model-output sanitizer (fence extraction,
  brace narrowing, strict JSON parse, control-character retry).
* `jsonParse` embeds the strict `JSON.parse` grammar, keeping number
  lexemes verbatim and rejecting raw control characters inside strings.
* `retrieve` / `retrieveV0` embed the candidate retrieval with the
  resume-category fallback of the two pipeline revisions.
* `generateMCQ`, `generateSTARQuestions`, `generateTechnicalCodingQuestions`
  embed the synthesis calls; remote replies are passed in as oracle data.
* `handlerGenerate`, `handlerValidateStar`, `handlerValidateCode` embed the
  route bodies of the handler, with the DynamoDB cache as explicit state and
  an effect trace recording the remote calls each path performs.
-/

namespace GetQuizzed

/-- Characters of a string literal; all embedded code works on `List Char`. -/
def toChars (s : String) : List Char := s.data

/-- The opening curly brace character. -/
def lbrace : Char := Char.ofNat 123

/-- The closing curly brace character. -/
def rbrace : Char := Char.ofNat 125

/-- Parsed JSON values.  Number lexemes are kept verbatim (the original code
holds them as IEEE doubles; no claim depends on numeric rounding). -/
inductive Json where
  | null
  | bool (b : Bool)
  | num (lit : List Char)
  | str (s : List Char)
  | arr (elems : List Json)
  | obj (fields : List (List Char × Json))

/-- JSON insignificant whitespace (space, tab, line feed, carriage return). -/
def isJsonWs (c : Char) : Bool :=
  c = ' ' || c = '\t' || c = '\n' || c = '\r'

/-- Drop leading JSON whitespace. -/
def skipWs : List Char → List Char
  | [] => []
  | c :: cs => if isJsonWs c then skipWs cs else c :: cs

/-- Hex digit value, for `\u` escapes. -/
def hexVal (c : Char) : Option Nat :=
  if '0' ≤ c ∧ c ≤ '9' then some (c.toNat - 48)
  else if 'a' ≤ c ∧ c ≤ 'f' then some (c.toNat - 87)
  else if 'A' ≤ c ∧ c ≤ 'F' then some (c.toNat - 55)
  else none

/-- Body of a JSON string literal after the opening quote: decodes escapes and,
like `JSON.parse`, rejects raw control characters (code points below 32).
Returns the decoded characters and the remaining input. -/
def parseStringBody : Nat → List Char → Option (List Char × List Char)
  | 0, _ => none
  | _, [] => none
  | fuel + 1, c :: cs =>
    if c = '"' then some ([], cs)
    else if c = '\\' then
      match cs with
      | [] => none
      | e :: cs2 =>
        let cont := fun (ch : Char) (rest : List Char) =>
          (parseStringBody fuel rest).map (fun p => (ch :: p.1, p.2))
        if e = '"' then cont '"' cs2
        else if e = '\\' then cont '\\' cs2
        else if e = '/' then cont '/' cs2
        else if e = 'b' then cont (Char.ofNat 8) cs2
        else if e = 'f' then cont (Char.ofNat 12) cs2
        else if e = 'n' then cont '\n' cs2
        else if e = 'r' then cont '\r' cs2
        else if e = 't' then cont '\t' cs2
        else if e = 'u' then
          match cs2 with
          | h1 :: h2 :: h3 :: h4 :: cs3 =>
            match hexVal h1, hexVal h2, hexVal h3, hexVal h4 with
            | some a, some b, some c3, some d =>
              cont (Char.ofNat (((a * 16 + b) * 16 + c3) * 16 + d)) cs3
            | _, _, _, _ => none
          | _ => none
        else none
    else if c.toNat < 32 then none
    else (parseStringBody fuel cs).map (fun p => (c :: p.1, p.2))

/-- Longest digit run at the head of the input, with the rest. -/
def digitRun (s : List Char) : List Char × List Char :=
  (s.takeWhile Char.isDigit, s.dropWhile Char.isDigit)

/-- Integer part of a JSON number: `0` or a nonzero digit followed by digits. -/
def parseIntPart : List Char → Option (List Char × List Char)
  | [] => none
  | c :: cs =>
    if c = '0' then some ([c], cs)
    else if c.isDigit then
      let p := digitRun cs
      some (c :: p.1, p.2)
    else none

/-- Optional fraction part `.digits` of a JSON number. -/
def parseFracPart (s : List Char) : Option (List Char × List Char) :=
  match s with
  | c :: cs =>
    if c = '.' then
      let p := digitRun cs
      if p.1.isEmpty then none else some (c :: p.1, p.2)
    else some ([], s)
  | [] => some ([], [])

/-- Optional exponent part `e[+-]digits` of a JSON number. -/
def parseExpPart (s : List Char) : Option (List Char × List Char) :=
  match s with
  | c :: cs =>
    if c = 'e' ∨ c = 'E' then
      match cs with
      | d :: cs2 =>
        if d = '+' ∨ d = '-' then
          let p := digitRun cs2
          if p.1.isEmpty then none else some (c :: d :: p.1, p.2)
        else
          let p := digitRun cs
          if p.1.isEmpty then none else some (c :: p.1, p.2)
      | [] => none
    else some ([], s)
  | [] => some ([], [])

/-- JSON number lexeme `-?(0|[1-9][0-9]*)(.[0-9]+)?([eE][+-]?[0-9]+)?`. -/
def parseNumber (s : List Char) : Option (List Char × List Char) :=
  let signed : List Char × List Char :=
    match s with
    | c :: t => if c = '-' then ([c], t) else ([], s)
    | [] => ([], s)
  match parseIntPart signed.2 with
  | none => none
  | some ip =>
    match parseFracPart ip.2 with
    | none => none
    | some fp =>
      match parseExpPart fp.2 with
      | none => none
      | some ep => some (signed.1 ++ ip.1 ++ fp.1 ++ ep.1, ep.2)

mutual

/-- Strict JSON value parser (fuel-bounded recursion). -/
def parseValue : Nat → List Char → Option (Json × List Char)
  | 0, _ => none
  | _ + 1, [] => none
  | fuel + 1, c :: cs =>
    if c = '"' then
      (parseStringBody (cs.length + 1) cs).map (fun p => (Json.str p.1, p.2))
    else if c = lbrace then
      match skipWs cs with
      | d :: ds => if d = rbrace then some (Json.obj [], ds) else parseObjFields fuel (d :: ds) []
      | [] => none
    else if c = '[' then
      match skipWs cs with
      | d :: ds => if d = ']' then some (Json.arr [], ds) else parseArrElems fuel (d :: ds) []
      | [] => none
    else if c = 't' then
      match cs with
      | 'r' :: 'u' :: 'e' :: r => some (Json.bool true, r)
      | _ => none
    else if c = 'f' then
      match cs with
      | 'a' :: 'l' :: 's' :: 'e' :: r => some (Json.bool false, r)
      | _ => none
    else if c = 'n' then
      match cs with
      | 'u' :: 'l' :: 'l' :: r => some (Json.null, r)
      | _ => none
    else if c = '-' ∨ c.isDigit then
      (parseNumber (c :: cs)).map (fun p => (Json.num p.1, p.2))
    else none

/-- Elements of a JSON array after the opening bracket (nonempty case). -/
def parseArrElems : Nat → List Char → List Json → Option (Json × List Char)
  | 0, _, _ => none
  | fuel + 1, s, acc =>
    match parseValue fuel s with
    | none => none
    | some (v, r) =>
      match skipWs r with
      | c :: cs =>
        if c = ',' then parseArrElems fuel (skipWs cs) (acc ++ [v])
        else if c = ']' then some (Json.arr (acc ++ [v]), cs)
        else none
      | [] => none

/-- Members of a JSON object after the opening brace (nonempty case). -/
def parseObjFields : Nat → List Char → List (List Char × Json) → Option (Json × List Char)
  | 0, _, _ => none
  | fuel + 1, s, acc =>
    match s with
    | c :: cs =>
      if c = '"' then
        match parseStringBody (cs.length + 1) cs with
        | none => none
        | some (k, r1) =>
          match skipWs r1 with
          | d :: r2 =>
            if d = ':' then
              match parseValue fuel (skipWs r2) with
              | none => none
              | some (v, r3) =>
                match skipWs r3 with
                | e :: r4 =>
                  if e = ',' then parseObjFields fuel (skipWs r4) (acc ++ [(k, v)])
                  else if e = rbrace then some (Json.obj (acc ++ [(k, v)]), r4)
                  else none
                | [] => none
            else none
          | [] => none
      else none
    | [] => none

end

/-- `JSON.parse`: whole-input strict parse, allowing surrounding whitespace. -/
def jsonParse (s : List Char) : Option Json :=
  match parseValue (s.length + 1) (skipWs s) with
  | some (v, r) => if (skipWs r).isEmpty then some v else none
  | none => none

/-- First occurrence split: `some (before, after)` where `before ++ pat ++ after`
reassembles the input and `before` is shortest. -/
def splitFirst (pat : List Char) : List Char → Option (List Char × List Char)
  | [] => if pat.isEmpty then some ([], []) else none
  | c :: cs =>
    if pat.isPrefixOf (c :: cs) then some ([], (c :: cs).drop pat.length)
    else
      match splitFirst pat cs with
      | some p => some (c :: p.1, p.2)
      | none => none

/-- JavaScript regex whitespace class `\s` (the code points the repo's inputs
can contain: space, tab, line feed, carriage return, vertical tab, form feed,
no-break space). -/
def isJsWs (c : Char) : Bool :=
  c = ' ' || c = '\t' || c = '\n' || c = '\r' ||
  c = Char.ofNat 11 || c = Char.ofNat 12 || c = Char.ofNat 160

/-- Strip `\s*` from both ends, as the fence regex groups do. -/
def trimJsWs (s : List Char) : List Char :=
  ((s.dropWhile isJsWs).reverse.dropWhile isJsWs).reverse

/-- The triple-backtick fence marker. -/
def ticks : List Char := toChars "```"

/-- Interior of the first fenced block whose fence opens with
three backticks followed by `label`, as matched by the lazy regex
with surrounding whitespace trimmed by its greedy wings. -/
def extractFencedBlock (label : List Char) (text : List Char) : Option (List Char) :=
  match splitFirst (ticks ++ label) text with
  | none => none
  | some p =>
    match splitFirst ticks p.2 with
    | none => none
    | some q => some (trimJsWs q.1)

/-- Index of the last occurrence of `c`, if any. -/
def lastIdxOf (c : Char) (s : List Char) : Option Nat :=
  (s.reverse.findIdx? (fun d => d = c)).map (fun k => s.length - 1 - k)

/-- `text.substring(firstBrace, lastBrace + 1)` narrowing from the sanitizer;
JavaScript `substring` swaps its endpoints when given in reverse order. -/
def braceNarrow (s : List Char) : List Char :=
  match s.findIdx? (fun d => d = lbrace), lastIdxOf rbrace s with
  | some i, some j =>
    let a := min i (j + 1)
    let b := max i (j + 1)
    (s.take b).drop a
  | _, _ => s

/-- Replacement of literal newline / carriage-return / tab by a space. -/
def ctrlToSpace (c : Char) : Char :=
  if c = '\n' ∨ c = '\r' ∨ c = '\t' then ' ' else c

/-- The sanitizer `cleanResponse`: extract a `json`-labelled fenced block, else
any fenced block; narrow to the first `{` … last `}`; strict-parse; on failure
replace control characters by spaces and retry once.  `none` is the thrown
parse error. -/
def cleanResponse (text : List Char) : Option Json :=
  let cleanText :=
    match extractFencedBlock (toChars "json") text with
    | some inner => inner
    | none =>
      match extractFencedBlock [] text with
      | some inner => inner
      | none => text
  let narrowed := braceNarrow cleanText
  match jsonParse narrowed with
  | some v => some v
  | none => jsonParse (narrowed.map ctrlToSpace)

/-- Member access on a parsed object: JavaScript keeps the last duplicate key. -/
def jGet (j : Json) (key : List Char) : Option Json :=
  match j with
  | Json.obj fs => (fs.filterMap (fun p => if p.1 = key then some p.2 else none)).getLast?
  | _ => none

/-- JavaScript truthiness of a parsed JSON value (`0`, `""`, `null`, `false`
are falsy; arrays and objects are always truthy). -/
def jsTruthy (j : Json) : Bool :=
  match j with
  | Json.null => false
  | Json.bool b => b
  | Json.num lit =>
    -- a JSON number is zero exactly when its mantissa has no nonzero digit
    !((lit.takeWhile (fun c => c ≠ 'e' ∧ c ≠ 'E')).all
        (fun c => c = '-' ∨ c = '0' ∨ c = '.'))
  | Json.str s => !s.isEmpty
  | Json.arr _ => true
  | Json.obj _ => true

/-- Failure modes the handler can surface. -/
inductive GenError where
  | completionUnavailable
  | malformedOutput
  | jsTypeError
  | jsonSyntaxError
  | thrown (msg : List Char)
  | pathInvalid

/-- One LanceDB row (a context record as read by the pipeline). -/
structure Row where
  text : List Char
  metadata : List Char
deriving DecidableEq

/-- Inputs of one retrieval attempt: the three similarity-search result lists,
the non-similarity resume fallback result, and the random draws
`Math.floor(Math.random() * len)` used for the three picks (each strictly
below the picked list's length whenever that list is nonempty). -/
structure RetrievalEnv where
  leetcodeHits : List Row
  resumeHits : List Row
  noteHits : List Row
  anyResume : List Row
  lcIdx : Nat
  resIdx : Nat
  noteIdx : Nat
deriving DecidableEq

/-- Message of the insufficiency error thrown by the current revision. -/
def insufficientMsg : List Char := toChars "Insufficient data in Vector DB"

/-- The resume candidate list after the fallback: when the similarity search
returned nothing, the `any record of category=resume, limit 1` result. -/
def finalResumeRows (env : RetrievalEnv) : List Row :=
  if env.resumeHits.isEmpty then env.anyResume else env.resumeHits

/-- Candidate retrieval of the current pipeline revision: fallback for resume,
random pick per category, failure when any pick is missing.  The thrown error
message is the fixed string `insufficientMsg`. -/
def retrieve (env : RetrievalEnv) : Except GenError (Row × Row × Row) :=
  match env.leetcodeHits.get? env.lcIdx,
        (finalResumeRows env).get? env.resIdx,
        env.noteHits.get? env.noteIdx with
  | some lc, some res, some note => Except.ok (lc, res, note)
  | _, _, _ => Except.error (GenError.thrown insufficientMsg)

/-- Categories whose pick is missing, in the order the earlier pipeline
revision accumulates them. -/
def missingCategories (lc res note : Option Row) : List (List Char) :=
  (if lc.isNone then [toChars "leetcode"] else []) ++
  (if res.isNone then [toChars "resume"] else []) ++
  (if note.isNone then [toChars "note"] else [])

/-- `Array.prototype.join(", ")`. -/
def joinComma : List (List Char) → List Char
  | [] => []
  | [x] => x
  | x :: y :: xs => x ++ toChars ", " ++ joinComma (y :: xs)

/-- Insufficiency message of the earlier pipeline revision, which enumerates
every starved category. -/
def insufficientMsgV0 (missing : List (List Char)) : List Char :=
  toChars "Insufficient data in Vector DB for categories: " ++ joinComma missing

/-- Candidate retrieval of the earlier pipeline revision: same fallback and
picks, but the thrown error names every missing category. -/
def retrieveV0 (env : RetrievalEnv) : Except GenError (Row × Row × Row) :=
  let lcPick := env.leetcodeHits.get? env.lcIdx
  let resPick := (finalResumeRows env).get? env.resIdx
  let notePick := env.noteHits.get? env.noteIdx
  match lcPick, resPick, notePick with
  | some lc, some res, some note => Except.ok (lc, res, note)
  | _, _, _ =>
    Except.error (GenError.thrown
      (insufficientMsgV0 (missingCategories lcPick resPick notePick)))

/-- One completion call followed by the sanitizer: the shape shared by
`generateMCQ`, `generateOpenEnded`, `validateSTARStep`, `validateCode`.
The oracle reply is `none` when the remote completion call fails. -/
def completeAndClean (reply : Option (List Char)) : Except GenError Json :=
  match reply with
  | none => Except.error GenError.completionUnavailable
  | some raw =>
    match cleanResponse raw with
    | none => Except.error GenError.malformedOutput
    | some j => Except.ok j

/-- `generateMCQ`: one completion call, sanitized reply returned as-is. -/
def generateMCQ (reply : Option (List Char)) : Except GenError Json :=
  completeAndClean reply

/-- `result.questions || []` followed by `.map`: property access on `null`
throws; a missing or falsy member yields the empty list; a truthy non-array
makes the subsequent `.map` throw. -/
def questionsOrEmpty (j : Json) : Except GenError (List Json) :=
  match j with
  | Json.null => Except.error GenError.jsTypeError
  | _ =>
    match jGet j (toChars "questions") with
    | none => Except.ok []
    | some v =>
      if jsTruthy v then
        match v with
        | Json.arr l => Except.ok l
        | _ => Except.error GenError.jsTypeError
      else Except.ok []

/-- `generateSTARQuestions`: one completion call, sanitize, then
`result.questions || []`. -/
def generateSTARQuestions (reply : Option (List Char)) : Except GenError (List Json) :=
  match completeAndClean reply with
  | Except.error e => Except.error e
  | Except.ok j => questionsOrEmpty j

/-- `generateTechnicalCodingQuestions`: identical reply handling. -/
def generateTechnicalCodingQuestions (reply : Option (List Char)) :
    Except GenError (List Json) :=
  match completeAndClean reply with
  | Except.error e => Except.error e
  | Except.ok j => questionsOrEmpty j

/-- A STAR answer segment as persisted by the validate-star route: the raw
answer plus the `score` / `feedback` / `better_version` members of the
sanitized grading reply (absent members stay absent). -/
structure SegmentVal where
  answer : List Char
  score : Option Json
  feedback : Option Json
  better_version : Option Json

/-- The four per-step progress slots of one STAR question. -/
structure StarProgress where
  S : Option SegmentVal
  T : Option SegmentVal
  A : Option SegmentVal
  R : Option SegmentVal

/-- Progress value every generated STAR question starts with:
`{ S: null, T: null, A: null, R: null }`. -/
def emptyStarProgress : StarProgress :=
  { S := none, T := none, A := none, R := none }

/-- A code-review result as persisted by the validate-code route. -/
structure CodeResultVal where
  answer : List Char
  score : Option Json
  feedback : Option Json
  better_solution : Option Json

/-- One STAR question of the stored record: the synthesized object spread
together with its `userProgress` map. -/
structure StarQ where
  data : Json
  userProgress : Option StarProgress

/-- One coding question of the stored record. -/
structure CodeQ where
  data : Json
  userProgress : Option CodeResultVal

/-- The assembled daily quiz record. -/
structure Quiz where
  date : List Char
  lcProblem : Json
  lcAiQuestion : Json
  resumeContext : List Char
  resumeMcq : Json
  resumeQuestions : List StarQ
  techContext : List Char
  techMcq : Json
  techQuestions : List CodeQ

/-- Assembly of the quiz object: `JSON.parse(lc.text)` (which can throw) for
the leetcode problem, and the two question lists mapped onto their initial
progress values. -/
def assembleQuiz (today : List Char) (lc res note : Row) (q1 q2m : Json)
    (q2s : List Json) (q3m : Json) (q3c : List Json) : Except GenError Quiz :=
  match jsonParse lc.text with
  | none => Except.error GenError.jsonSyntaxError
  | some p =>
    Except.ok
      { date := today
        lcProblem := p
        lcAiQuestion := q1
        resumeContext := res.metadata
        resumeMcq := q2m
        resumeQuestions := q2s.map (fun q => { data := q, userProgress := some emptyStarProgress })
        techContext := note.metadata
        techMcq := q3m
        techQuestions := q3c.map (fun q => { data := q, userProgress := none }) }

/-- All oracle inputs of one generation attempt: the retrieval inputs and the
five completion replies (`none` = the remote call failed). -/
structure GenEnv where
  retr : RetrievalEnv
  lcMcqReply : Option (List Char)
  resumeMcqReply : Option (List Char)
  starReply : Option (List Char)
  noteMcqReply : Option (List Char)
  codeReply : Option (List Char)

/-- The generation step of the handler: retrieve, run the five synthesis calls
(joined by `Promise.all`, any failure failing the whole step), assemble. -/
def generateQuiz (env : GenEnv) (today : List Char) : Except GenError Quiz :=
  match retrieve env.retr with
  | Except.error e => Except.error e
  | Except.ok picks =>
    match generateMCQ env.lcMcqReply with
    | Except.error e => Except.error e
    | Except.ok q1 =>
      match generateMCQ env.resumeMcqReply with
      | Except.error e => Except.error e
      | Except.ok q2m =>
        match generateSTARQuestions env.starReply with
        | Except.error e => Except.error e
        | Except.ok q2s =>
          match generateMCQ env.noteMcqReply with
          | Except.error e => Except.error e
          | Except.ok q3m =>
            match generateTechnicalCodingQuestions env.codeReply with
            | Except.error e => Except.error e
            | Except.ok q3c =>
              assembleQuiz today picks.1 picks.2.1 picks.2.2 q1 q2m q2s q3m q3c

/-- Remote interactions a route can perform, for the effect trace. -/
inductive Effect where
  | cacheGet
  | embedCall
  | searchCall
  | anyQueryCall
  | completionCall
  | cachePut
  | cacheUpdate
deriving DecidableEq

/-- The cached item stored under `(pk DAILY_QUIZ, sk dateKey)`. -/
structure StoredItem where
  quiz : Quiz
  ttl : Nat

/-- The cache entry for the requested day (`none` = absent). -/
structure CacheState where
  entry : Option StoredItem

/-- Remote calls of the retrieval phase: two probe embeddings, three
similarity searches, and the resume fallback query exactly when the resume
similarity search came back empty. -/
def retrievalEffects (renv : RetrievalEnv) : List Effect :=
  [Effect.embedCall, Effect.embedCall,
   Effect.searchCall, Effect.searchCall, Effect.searchCall] ++
  (if renv.resumeHits.isEmpty then [Effect.anyQueryCall] else [])

/-- Remote calls of the whole generation step: retrieval, then the five
concurrent completion calls, which are only issued when retrieval survived. -/
def genEffects (env : GenEnv) : List Effect :=
  retrievalEffects env.retr ++
  (match retrieve env.retr with
   | Except.error _ => []
   | Except.ok _ =>
     [Effect.completionCall, Effect.completionCall, Effect.completionCall,
      Effect.completionCall, Effect.completionCall])

/-- The 7-day retention window, in seconds. -/
def ttlSeconds : Nat := 7 * 24 * 60 * 60

/-- The cache-miss path of the generate route: run the generation step; on
success overwrite the cache entry with expiry `now + ttlSeconds`; on failure
leave the cache untouched and surface the error. -/
def missPath (st : CacheState) (env : GenEnv) (today : List Char) (now : Nat)
    (pre : List Effect) : Except GenError Quiz × CacheState × List Effect :=
  match generateQuiz env today with
  | Except.error e => (Except.error e, st, pre ++ genEffects env)
  | Except.ok q =>
    (Except.ok q, { entry := some { quiz := q, ttl := now + ttlSeconds } },
     pre ++ genEffects env ++ [Effect.cachePut])

/-- The generate route: unless `force`, read the cache and return a present
entry unchanged; otherwise run the miss path. -/
def handlerGenerate (st : CacheState) (force : Bool) (env : GenEnv)
    (today : List Char) (now : Nat) :
    Except GenError Quiz × CacheState × List Effect :=
  if force then missPath st env today now []
  else
    match st.entry with
    | some it => (Except.ok it.quiz, st, [Effect.cacheGet])
    | none => missPath st env today now [Effect.cacheGet]

/-- The four STAR steps. -/
inductive Step where
  | S
  | T
  | A
  | R
deriving DecidableEq

/-- Write one step slot of a progress map, leaving the siblings alone. -/
def setStep (sp : StarProgress) (st : Step) (v : SegmentVal) : StarProgress :=
  match st with
  | Step.S => { sp with S := some v }
  | Step.T => { sp with T := some v }
  | Step.A => { sp with A := some v }
  | Step.R => { sp with R := some v }

/-- The DynamoDB update
`SET quiz.resume.questions[i].userProgress.<step> = :val`: a targeted partial
write that fails with a document-path error when question `i` or its
`userProgress` map does not exist, and otherwise rewrites only that slot. -/
def applyStarUpdate (q : Quiz) (i : Nat) (st : Step) (v : SegmentVal) :
    Except GenError Quiz :=
  match q.resumeQuestions.get? i with
  | none => Except.error GenError.pathInvalid
  | some sq =>
    match sq.userProgress with
    | none => Except.error GenError.pathInvalid
    | some sp =>
      Except.ok
        { q with resumeQuestions :=
            q.resumeQuestions.set i { sq with userProgress := some (setStep sp st v) } }

/-- The DynamoDB update `SET quiz.technical.questions[i].userProgress = :val`:
replaces the whole progress value of coding question `i`. -/
def applyCodeUpdate (q : Quiz) (i : Nat) (v : CodeResultVal) :
    Except GenError Quiz :=
  match q.techQuestions.get? i with
  | none => Except.error GenError.pathInvalid
  | some cq =>
    Except.ok
      { q with techQuestions := q.techQuestions.set i { cq with userProgress := some v } }

/-- Request body of the validate-star route. -/
structure StarBody where
  date : Option (List Char)
  questionIndex : Option Nat
  step : Step
  userAnswer : List Char
  question : List Char

/-- `body.date && body.questionIndex !== undefined`: persistence happens only
when a truthy date and a question index were supplied. -/
def shouldPersistStar (b : StarBody) : Bool :=
  (match b.date with
   | some d => !d.isEmpty
   | none => false) && b.questionIndex.isSome

/-- `validateSTARStep`: one rubric completion call, sanitized.  The function
inspects only its payload and the reply — never any stored progress. -/
def validateSTARStep (reply : Option (List Char)) : Except GenError Json :=
  completeAndClean reply

/-- The segment value the route persists for a grading reply. -/
def mkSegment (b : StarBody) (validation : Json) : SegmentVal :=
  { answer := b.userAnswer
    score := jGet validation (toChars "score")
    feedback := jGet validation (toChars "feedback")
    better_version := jGet validation (toChars "better_version") }

/-- The POST /validate-star route: grade first, unconditionally; then, if a
date and question index were supplied, write the segment through the targeted
partial update; return the grading reply. -/
def handlerValidateStar (entry : Option StoredItem) (b : StarBody)
    (reply : Option (List Char)) :
    Except GenError Json × Option StoredItem × List Effect :=
  match validateSTARStep reply with
  | Except.error e => (Except.error e, entry, [Effect.completionCall])
  | Except.ok validation =>
    if shouldPersistStar b then
      match entry with
      | none =>
        (Except.error GenError.pathInvalid, none,
         [Effect.completionCall, Effect.cacheUpdate])
      | some it =>
        match applyStarUpdate it.quiz (b.questionIndex.getD 0) b.step
            (mkSegment b validation) with
        | Except.error e =>
          (Except.error e, some it, [Effect.completionCall, Effect.cacheUpdate])
        | Except.ok q2 =>
          (Except.ok validation, some { it with quiz := q2 },
           [Effect.completionCall, Effect.cacheUpdate])
    else (Except.ok validation, entry, [Effect.completionCall])

/-- Request body of the validate-code route. -/
structure CodeBody where
  date : Option (List Char)
  questionIndex : Option Nat
  userAnswer : List Char
  question : List Char
  language : List Char

/-- Persistence condition of the validate-code route. -/
def shouldPersistCode (b : CodeBody) : Bool :=
  (match b.date with
   | some d => !d.isEmpty
   | none => false) && b.questionIndex.isSome

/-- `validateCode`: one code-review completion call, sanitized. -/
def validateCode (reply : Option (List Char)) : Except GenError Json :=
  completeAndClean reply

/-- The code result value the route persists for a review reply. -/
def mkCodeResult (b : CodeBody) (validation : Json) : CodeResultVal :=
  { answer := b.userAnswer
    score := jGet validation (toChars "score")
    feedback := jGet validation (toChars "feedback")
    better_solution := jGet validation (toChars "better_solution") }

/-- The POST /validate-code route: grade, then optionally persist through the
targeted partial update, replacing any prior result for that question. -/
def handlerValidateCode (entry : Option StoredItem) (b : CodeBody)
    (reply : Option (List Char)) :
    Except GenError Json × Option StoredItem × List Effect :=
  match validateCode reply with
  | Except.error e => (Except.error e, entry, [Effect.completionCall])
  | Except.ok validation =>
    if shouldPersistCode b then
      match entry with
      | none =>
        (Except.error GenError.pathInvalid, none,
         [Effect.completionCall, Effect.cacheUpdate])
      | some it =>
        match applyCodeUpdate it.quiz (b.questionIndex.getD 0)
            (mkCodeResult b validation) with
        | Except.error e =>
          (Except.error e, some it, [Effect.completionCall, Effect.cacheUpdate])
        | Except.ok q2 =>
          (Except.ok validation, some { it with quiz := q2 },
           [Effect.completionCall, Effect.cacheUpdate])
    else (Except.ok validation, entry, [Effect.completionCall])

/-- The score slot of a segment as the dashboard reads it back from the API
(may be absent when the grading reply carried no numeric score). -/
structure FeSegment where
  score : Option Int
deriving DecidableEq

/-- Per-step progress of one STAR question as the dashboard sees it. -/
structure FeProgress where
  S : Option FeSegment
  T : Option FeSegment
  A : Option FeSegment
  R : Option FeSegment
deriving DecidableEq

/-- One STAR question as the dashboard sees it. -/
structure FeQuestion where
  userProgress : Option FeProgress
deriving DecidableEq

/-- `!q.userProgress?.X?.score || q.userProgress.X.score < 8`: the step is
locked when the predecessor segment is missing, scoreless, scored `0`
(falsy), or below 8. -/
def lockCheck (seg : Option FeSegment) : Bool :=
  match seg with
  | none => true
  | some s =>
    match s.score with
    | none => true
    | some sc => sc == 0 || sc < 8

/-- `isStepLocked` of the dashboard's STAR drill: `S` is always open; `T`,
`A`, `R` are locked until the previous step's stored segment clears the
threshold. -/
def isStepLocked (q : FeQuestion) (st : Step) : Bool :=
  match st with
  | Step.S => false
  | Step.T => lockCheck (q.userProgress.bind (fun p => p.S))
  | Step.A => lockCheck (q.userProgress.bind (fun p => p.T))
  | Step.R => lockCheck (q.userProgress.bind (fun p => p.A))

/-- Substring test, used to ask whether an error message names a category. -/
def containsSub (pat s : List Char) : Bool := (splitFirst pat s).isSome

/-- Section lengths of a generation outcome (`none` on failure). -/
def sectionLengths (r : Except GenError Quiz) : Option (Nat × Nat) :=
  match r with
  | Except.ok q => some (q.resumeQuestions.length, q.techQuestions.length)
  | Except.error _ => none

/-! Concrete sample inputs used by witnesses and counterexamples. -/

/-- A leetcode row whose `text` is the parseable JSON `{}`. -/
def sampleLcRow : Row := { text := toChars "\x7b\x7d", metadata := toChars "lcmeta" }

/-- A resume row. -/
def sampleResRow : Row := { text := toChars "resume text", metadata := toChars "resmeta" }

/-- A note row. -/
def sampleNoteRow : Row := { text := toChars "note text", metadata := toChars "notemeta" }

/-- A retrieval environment in which every category has one similarity hit. -/
def okRetr : RetrievalEnv :=
  { leetcodeHits := [sampleLcRow], resumeHits := [sampleResRow],
    noteHits := [sampleNoteRow], anyResume := [],
    lcIdx := 0, resIdx := 0, noteIdx := 0 }

/-- A completion reply whose sanitized value is the empty object. -/
def emptyObjReply : Option (List Char) := some (toChars "\x7b\x7d")

/-- A completion reply carrying one question in its `questions` array. -/
def oneQReply : Option (List Char) :=
  some (toChars "\x7b\"questions\":[\x7b\x7d]\x7d")

/-- A generation environment in which every remote call succeeds but the two
batch replies carry no `questions` member at all. -/
def zeroEnv : GenEnv :=
  { retr := okRetr, lcMcqReply := emptyObjReply, resumeMcqReply := emptyObjReply,
    starReply := emptyObjReply, noteMcqReply := emptyObjReply,
    codeReply := emptyObjReply }

/-- A generation environment whose batch replies carry one question each. -/
def oneQEnv : GenEnv :=
  { retr := okRetr, lcMcqReply := emptyObjReply, resumeMcqReply := emptyObjReply,
    starReply := oneQReply, noteMcqReply := emptyObjReply, codeReply := oneQReply }

/-- A sample date key. -/
def sampleDate : List Char := toChars "2025-01-01"

/-- The quiz `zeroEnv` generates. -/
def zeroQuiz : Quiz :=
  { date := sampleDate, lcProblem := Json.obj [], lcAiQuestion := Json.obj []
    resumeContext := toChars "resmeta", resumeMcq := Json.obj []
    resumeQuestions := []
    techContext := toChars "notemeta", techMcq := Json.obj []
    techQuestions := [] }

/-- The quiz `oneQEnv` generates. -/
def oneQQuiz : Quiz :=
  { date := sampleDate, lcProblem := Json.obj [], lcAiQuestion := Json.obj []
    resumeContext := toChars "resmeta", resumeMcq := Json.obj []
    resumeQuestions := [{ data := Json.obj [], userProgress := some emptyStarProgress }]
    techContext := toChars "notemeta", techMcq := Json.obj []
    techQuestions := [{ data := Json.obj [], userProgress := none }] }

/-- A retrieval environment in which every store read comes back empty. -/
def emptyRetr : RetrievalEnv :=
  { leetcodeHits := [], resumeHits := [], noteHits := [], anyResume := [],
    lcIdx := 0, resIdx := 0, noteIdx := 0 }

/-- A generation environment in which nothing is available. -/
def emptyEnv : GenEnv :=
  { retr := emptyRetr, lcMcqReply := none, resumeMcqReply := none,
    starReply := none, noteMcqReply := none, codeReply := none }

/-- A minimal stored quiz, for cache-hit scenarios. -/
def tinyQuiz : Quiz :=
  { date := sampleDate, lcProblem := Json.null, lcAiQuestion := Json.null
    resumeContext := [], resumeMcq := Json.null, resumeQuestions := []
    techContext := [], techMcq := Json.null, techQuestions := [] }

/-- A sample graded segment, as a validate-star route would persist it. -/
def wSeg : SegmentVal :=
  { answer := toChars "my answer", score := some (Json.num (toChars "9"))
    feedback := some (Json.str (toChars "good")), better_version := none }

/-- A sample code-review result. -/
def wCodeRes : CodeResultVal :=
  { answer := toChars "my code", score := some (Json.num (toChars "7"))
    feedback := some (Json.str (toChars "ok")), better_solution := none }

/-- `oneQQuiz` after writing `wSeg` into step T of STAR question 0. -/
def wUpdatedQuiz : Quiz :=
  { oneQQuiz with resumeQuestions := [{ data := Json.obj [], userProgress := some { S := none, T := some wSeg, A := none, R := none } }] }

/-- `oneQQuiz` after writing `wCodeRes` into coding question 0. -/
def wCodeUpdatedQuiz : Quiz :=
  { oneQQuiz with techQuestions := [{ data := Json.obj [], userProgress := some wCodeRes }] }

/-! Theorems. -/

/-- C4: the sanitizer applies its recovery stages in order — json-labelled
fenced block, any fenced block, brace narrowing, strict parse, then a single
control-character cleanup retry — so the fenced input and the noise-wrapped
input both recover `{a:1}`, and the input with a literal newline inside a
string value fails the strict parse but succeeds after the retry, giving
`{a:"line1 line2"}`. -/
theorem c4_sanitizer_stage_examples :
    cleanResponse (toChars "```json\n\x7b\"a\":1\x7d\n```") =
      some (Json.obj [(toChars "a", Json.num (toChars "1"))]) ∧
    cleanResponse (toChars "noise\x7b\"a\":1\x7dnoise") =
      some (Json.obj [(toChars "a", Json.num (toChars "1"))]) ∧
    jsonParse (braceNarrow (toChars "\x7b\"a\":\"line1\nline2\"\x7d")) = none ∧
    cleanResponse (toChars "\x7b\"a\":\"line1\nline2\"\x7d") =
      some (Json.obj [(toChars "a", Json.str (toChars "line1 line2"))]) :=
  ⟨rfl, rfl, rfl, rfl⟩

/-- C6 counterexample: with both resume and note starved (and leetcode
available), the current revision's retrieval fails with the fixed message
`Insufficient data in Vector DB`, which names neither starved category. -/
theorem c6_counterexample :
    retrieve { leetcodeHits := [sampleLcRow], resumeHits := [], noteHits := [],
               anyResume := [], lcIdx := 0, resIdx := 0, noteIdx := 0 } =
      Except.error (GenError.thrown insufficientMsg) ∧
    containsSub (toChars "resume") insufficientMsg = false ∧
    containsSub (toChars "note") insufficientMsg = false :=
  ⟨rfl, rfl, rfl⟩

/-- C6 amended: the current revision fails whenever some category's final
candidate set is empty, but always with the fixed category-free message; only
the earlier pipeline revision's error enumerates the missing categories, and
there the list does name every empty category, not just the first. -/
theorem c6_error_naming :
    (∀ renv e, retrieve renv = Except.error e →
      e = GenError.thrown insufficientMsg) ∧
    (∀ renv,
      renv.leetcodeHits.get? renv.lcIdx = none ∨
      (finalResumeRows renv).get? renv.resIdx = none ∨
      renv.noteHits.get? renv.noteIdx = none →
      retrieveV0 renv = Except.error (GenError.thrown (insufficientMsgV0
        (missingCategories (renv.leetcodeHits.get? renv.lcIdx)
          ((finalResumeRows renv).get? renv.resIdx)
          (renv.noteHits.get? renv.noteIdx))))) ∧
    (∀ lcPick resPick notePick,
      (toChars "leetcode" ∈ missingCategories lcPick resPick notePick ↔ lcPick = none) ∧
      (toChars "resume" ∈ missingCategories lcPick resPick notePick ↔ resPick = none) ∧
      (toChars "note" ∈ missingCategories lcPick resPick notePick ↔ notePick = none)) := by
  refine ⟨?_, ?_, ?_⟩
  · intro renv e h
    unfold retrieve at h
    split at h
    · exact absurd h (by simp)
    · rw [Except.error.injEq] at h
      exact h.symm
  · intro renv h
    unfold retrieveV0
    rcases hlc : renv.leetcodeHits.get? renv.lcIdx with _ | lc <;>
      rcases hres : (finalResumeRows renv).get? renv.resIdx with _ | res <;>
      rcases hnote : renv.noteHits.get? renv.noteIdx with _ | note <;>
      simp only [hlc, hres, hnote] <;> try rfl
    · rw [hlc, hres, hnote] at h
      simp at h
  · intro lcPick resPick notePick
    rcases lcPick with _ | a <;> rcases resPick with _ | b <;>
      rcases notePick with _ | c <;>
      refine ⟨?_, ?_, ?_⟩ <;> simp [missingCategories] <;> decide

/-- C6 witness for the amended theorem: a store with only a leetcode hit makes
the earlier revision throw a message enumerating resume and note. -/
theorem c6_error_naming_witness :
    retrieveV0 { leetcodeHits := [sampleLcRow], resumeHits := [], noteHits := [],
                 anyResume := [], lcIdx := 0, resIdx := 0, noteIdx := 0 } =
      Except.error (GenError.thrown (insufficientMsgV0
        [toChars "resume", toChars "note"])) ∧
    containsSub (toChars "resume")
      (insufficientMsgV0 [toChars "resume", toChars "note"]) = true ∧
    containsSub (toChars "note")
      (insufficientMsgV0 [toChars "resume", toChars "note"]) = true := by
  refine ⟨?_, rfl, rfl⟩
  exact c6_error_naming.2.1
    { leetcodeHits := [sampleLcRow], resumeHits := [], noteHits := [],
      anyResume := [], lcIdx := 0, resIdx := 0, noteIdx := 0 }
    (Or.inr (Or.inl rfl))

/-- C5: when the resume similarity search is empty, the single-result
`any(resume)` row is used unconditionally; the fallback query is issued
exactly when the resume search starves; and the fallback never rescues the
leetcode or note categories. -/
theorem c5_resume_fallback :
    (∀ (renv : RetrievalEnv) r lc note,
      renv.resumeHits = [] → renv.anyResume = [r] → renv.resIdx = 0 →
      renv.leetcodeHits.get? renv.lcIdx = some lc →
      renv.noteHits.get? renv.noteIdx = some note →
      retrieve renv = Except.ok (lc, r, note)) ∧
    (∀ (renv : RetrievalEnv),
      Effect.anyQueryCall ∈ retrievalEffects renv ↔ renv.resumeHits = []) ∧
    (∀ (renv : RetrievalEnv) (rows : List Row), renv.resumeHits ≠ [] →
      retrieve { renv with anyResume := rows } =
        retrieve { renv with anyResume := [] }) ∧
    (∀ (renv : RetrievalEnv) (rows : List Row), renv.leetcodeHits = [] →
      retrieve { renv with anyResume := rows } =
        Except.error (GenError.thrown insufficientMsg)) ∧
    (∀ (renv : RetrievalEnv) (rows : List Row), renv.noteHits = [] →
      retrieve { renv with anyResume := rows } =
        Except.error (GenError.thrown insufficientMsg)) := by
  refine ⟨?_, ?_, ?_, ?_, ?_⟩
  · intro renv r lc note hres hany hidx hlc hnote
    unfold retrieve finalResumeRows
    rw [hres, hany, hidx, hlc, hnote]
    rfl
  · intro renv
    unfold retrievalEffects
    rcases h : renv.resumeHits with _ | ⟨a, t⟩ <;> simp [h]
  · intro renv rows h
    unfold retrieve finalResumeRows
    rcases hres : renv.resumeHits with _ | ⟨a, t⟩
    · exact absurd hres h
    · simp
  · intro renv rows h
    unfold retrieve
    rw [show ({ renv with anyResume := rows } : RetrievalEnv).leetcodeHits =
          renv.leetcodeHits from rfl, h]
    simp only [List.get?_nil]
  · intro renv rows h
    unfold retrieve
    rw [show ({ renv with anyResume := rows } : RetrievalEnv).noteHits =
          renv.noteHits from rfl, h]
    simp only [List.get?_nil]
    split <;> simp_all

/-- C3: `validateSTARStep` grades whatever it is handed — the route performs
its single grading call and returns the graded segment no matter what the
stored progress looks like (predecessor missing or below 8 included) — while
the sequential S, T, A, R gate lives only in the dashboard's `isStepLocked`,
which treats a step as unlocked exactly when the predecessor's stored segment
exists and scores at least 8. -/
theorem c3_validator_ungated :
    (∀ (entry : Option StoredItem) (b : StarBody) reply v,
      validateSTARStep reply = Except.ok v →
      ((handlerValidateStar entry b reply).2.2.count Effect.completionCall = 1 ∧
       (shouldPersistStar b = false →
         handlerValidateStar entry b reply =
           (Except.ok v, entry, [Effect.completionCall])) ∧
       (∀ it i sq sp, shouldPersistStar b = true → b.questionIndex = some i →
         entry = some it → it.quiz.resumeQuestions.get? i = some sq →
         sq.userProgress = some sp →
         (handlerValidateStar entry b reply).1 = Except.ok v))) ∧
    (∀ q, isStepLocked q Step.S = false) ∧
    (∀ q, isStepLocked q Step.T = false ↔
      ∃ seg sc, q.userProgress.bind (fun p => p.S) = some seg ∧
        seg.score = some sc ∧ 8 ≤ sc) ∧
    (∀ q, isStepLocked q Step.A = false ↔
      ∃ seg sc, q.userProgress.bind (fun p => p.T) = some seg ∧
        seg.score = some sc ∧ 8 ≤ sc) ∧
    (∀ q, isStepLocked q Step.R = false ↔
      ∃ seg sc, q.userProgress.bind (fun p => p.A) = some seg ∧
        seg.score = some sc ∧ 8 ≤ sc) := by
  have lockIff : ∀ seg, lockCheck seg = false ↔
      ∃ s sc, seg = some s ∧ s.score = some sc ∧ 8 ≤ sc := by
    intro seg
    rcases seg with _ | s
    · simp [lockCheck]
    · rcases hsc : s.score with _ | sc
      · simp [lockCheck, hsc]
      · simp only [lockCheck, hsc, Bool.or_eq_false_iff, beq_eq_false_iff_ne,
          ne_eq, decide_eq_false_iff_not, not_lt, Option.some.injEq]
        constructor
        · rintro ⟨-, h8⟩
          exact ⟨s, sc, rfl, hsc, h8⟩
        · rintro ⟨s2, sc2, hs, hsc2, h8⟩
          cases hs
          rw [hsc] at hsc2
          cases hsc2
          omega
  refine ⟨?_, ?_, ?_, ?_, ?_⟩
  · intro entry b reply v hok
    refine ⟨?_, ?_, ?_⟩
    · simp only [handlerValidateStar, hok]
      rcases hp : shouldPersistStar b with _ | _
      · simp
      · rcases entry with _ | it
        · simp
        · rcases hupd : applyStarUpdate it.quiz (b.questionIndex.getD 0) b.step
              (mkSegment b v) with e | q2 <;> simp [hupd]
    · intro hp
      simp [handlerValidateStar, hok, hp]
    · intro it i sq sp hp hidx hentry hget hprog
      have hupd : ∃ q2, applyStarUpdate it.quiz (b.questionIndex.getD 0) b.step
          (mkSegment b v) = Except.ok q2 := by
        rw [hidx]
        simp only [applyStarUpdate, Option.getD_some, hget, hprog]
        exact ⟨_, rfl⟩
      obtain ⟨q2, hupd⟩ := hupd
      simp [handlerValidateStar, hok, hp, hentry, hupd]
  · intro q
    rfl
  · intro q
    exact lockIff (q.userProgress.bind (fun p => p.S))
  · intro q
    exact lockIff (q.userProgress.bind (fun p => p.T))
  · intro q
    exact lockIff (q.userProgress.bind (fun p => p.A))

/-- C3 witness: a grading reply `{}` is graded and returned even though the
question's predecessor steps are all missing, and a stored `S` segment scoring
9 unlocks step `T` while an empty progress map leaves it locked. -/
theorem c3_validator_ungated_witness :
    validateSTARStep emptyObjReply = Except.ok (Json.obj []) ∧
    handlerValidateStar none
      { date := none, questionIndex := none, step := Step.T,
        userAnswer := [], question := [] } emptyObjReply =
      (Except.ok (Json.obj []), none, [Effect.completionCall]) ∧
    isStepLocked
      { userProgress := some
          { S := some { score := some 9 }, T := none, A := none, R := none } }
      Step.T = false ∧
    isStepLocked { userProgress := some { S := none, T := none, A := none, R := none } }
      Step.T = true := by
  refine ⟨rfl, ?_, ?_, rfl⟩
  · exact (c3_validator_ungated.1 none _ emptyObjReply (Json.obj []) rfl).2.1 rfl
  · exact (c3_validator_ungated.2.2.1 _).mpr
      ⟨{ score := some 9 }, 9, rfl, rfl, by omega⟩

/-- The generation step never records a cache write in its effect list. -/
theorem cachePut_not_mem_genEffects (env : GenEnv) :
    Effect.cachePut ∉ genEffects env := by
  unfold genEffects retrievalEffects
  intro hmem
  rcases List.mem_append.mp hmem with h | h
  · rcases List.mem_append.mp h with h2 | h2
    · simp at h2
    · rcases hre : env.retr.resumeHits.isEmpty with _ | _ <;>
        rw [hre] at h2 <;> simp at h2
  · rcases hr : retrieve env.retr with e | p <;> rw [hr] at h <;> simp at h

/-- Success of the generation step forces success of retrieval, of each of the
five synthesis calls, and of assembly. -/
theorem generateQuiz_ok_inv (env : GenEnv) (today : List Char) (q : Quiz)
    (h : generateQuiz env today = Except.ok q) :
    (∃ p, retrieve env.retr = Except.ok p) ∧
    (∃ v, generateMCQ env.lcMcqReply = Except.ok v) ∧
    (∃ v, generateMCQ env.resumeMcqReply = Except.ok v) ∧
    (∃ l, generateSTARQuestions env.starReply = Except.ok l) ∧
    (∃ v, generateMCQ env.noteMcqReply = Except.ok v) ∧
    (∃ l, generateTechnicalCodingQuestions env.codeReply = Except.ok l) := by
  unfold generateQuiz at h
  rcases h0 : retrieve env.retr with e | picks <;> rw [h0] at h
  · cases h
  rcases h1 : generateMCQ env.lcMcqReply with e | q1 <;> rw [h1] at h
  · cases h
  rcases h2 : generateMCQ env.resumeMcqReply with e | q2m <;> rw [h2] at h
  · cases h
  rcases h3 : generateSTARQuestions env.starReply with e | q2s <;> rw [h3] at h
  · cases h
  rcases h4 : generateMCQ env.noteMcqReply with e | q3m <;> rw [h4] at h
  · cases h
  rcases h5 : generateTechnicalCodingQuestions env.codeReply with e | q3c <;>
    rw [h5] at h
  · cases h
  exact ⟨⟨picks, rfl⟩, ⟨q1, rfl⟩, ⟨q2m, rfl⟩, ⟨q2s, rfl⟩, ⟨q3m, rfl⟩, ⟨q3c, rfl⟩⟩

/-- On a non-forcing call with an empty cache, the route is the miss path
prefixed by the cache read. -/
theorem handlerGenerate_none (st : CacheState) (env : GenEnv)
    (today : List Char) (now : Nat) (h : st.entry = none) :
    handlerGenerate st false env today now =
      missPath st env today now [Effect.cacheGet] := by
  unfold handlerGenerate
  rw [h]
  rfl

/-- On a non-forcing call with a present entry, the route returns it with only
the cache read in its trace. -/
theorem handlerGenerate_hit (st : CacheState) (env : GenEnv)
    (today : List Char) (now : Nat) (it : StoredItem) (h : st.entry = some it) :
    handlerGenerate st false env today now =
      (Except.ok it.quiz, st, [Effect.cacheGet]) := by
  unfold handlerGenerate
  rw [h]
  rfl

/-- Outputs of a successful miss path: the generated record, the refreshed
entry with the 7-day expiry, and the trace ending in the single put. -/
theorem missPath_ok_inv (st : CacheState) (env : GenEnv) (today : List Char)
    (now : Nat) (pre : List Effect) (q : Quiz) (st2 : CacheState)
    (tr : List Effect) (h : missPath st env today now pre = (Except.ok q, st2, tr)) :
    generateQuiz env today = Except.ok q ∧
    st2 = { entry := some { quiz := q, ttl := now + ttlSeconds } } ∧
    tr = pre ++ genEffects env ++ [Effect.cachePut] := by
  unfold missPath at h
  rcases hgen : generateQuiz env today with e | q0 <;> rw [hgen] at h <;>
    simp only [Prod.mk.injEq] at h
  · exact absurd h.1 (by simp)
  · obtain ⟨hq, hst2, htr⟩ := h
    rw [Except.ok.injEq] at hq
    subst hq
    exact ⟨rfl, hst2.symm, htr.symm⟩

/-- Shape of every successfully generated record: each STAR question carries
the empty four-slot progress map, each coding question a null progress, and
the two question lists are exactly the synthesized batches. -/
theorem generateQuiz_ok_shape (env : GenEnv) (today : List Char) (q : Quiz)
    (h : generateQuiz env today = Except.ok q) :
    (∀ sq ∈ q.resumeQuestions, sq.userProgress = some emptyStarProgress) ∧
    (∀ cq ∈ q.techQuestions, cq.userProgress = none) ∧
    (∃ l, generateSTARQuestions env.starReply = Except.ok l ∧
      q.resumeQuestions =
        l.map (fun a => { data := a, userProgress := some emptyStarProgress })) ∧
    (∃ l, generateTechnicalCodingQuestions env.codeReply = Except.ok l ∧
      q.techQuestions = l.map (fun a => { data := a, userProgress := none })) := by
  unfold generateQuiz at h
  rcases h0 : retrieve env.retr with e | picks <;> simp only [h0] at h
  all_goals try exact Except.noConfusion h
  rcases h1 : generateMCQ env.lcMcqReply with e | q1 <;> simp only [h1] at h
  all_goals try exact Except.noConfusion h
  rcases h2 : generateMCQ env.resumeMcqReply with e | q2m <;> simp only [h2] at h
  all_goals try exact Except.noConfusion h
  rcases h3 : generateSTARQuestions env.starReply with e | q2s <;>
    simp only [h3] at h
  all_goals try exact Except.noConfusion h
  rcases h4 : generateMCQ env.noteMcqReply with e | q3m <;> simp only [h4] at h
  all_goals try exact Except.noConfusion h
  rcases h5 : generateTechnicalCodingQuestions env.codeReply with e | q3c <;>
    simp only [h5] at h
  all_goals try exact Except.noConfusion h
  rcases hp : jsonParse picks.1.text with _ | p <;>
    simp only [assembleQuiz, hp] at h
  all_goals try exact Except.noConfusion h
  rw [Except.ok.injEq] at h
  subst h
  refine ⟨?_, ?_, ⟨q2s, rfl, rfl⟩, ⟨q3c, rfl, rfl⟩⟩
  · intro sq hsq
    rcases List.mem_map.mp hsq with ⟨a, _, rfl⟩
    rfl
  · intro cq hcq
    rcases List.mem_map.mp hcq with ⟨a, _, rfl⟩
    rfl

/-- C1: with `force = false`, a present cache entry is returned as-is — the
call's only remote effect is the cache read, the state is unchanged — and for
a previously unseen day a successful call persists exactly one record, after
which a second non-forcing call returns the identical record as a pure cache
hit, regardless of what the remote services would now answer. -/
theorem c1_cache_hit_idempotent :
    (∀ (st : CacheState) env today now it, st.entry = some it →
      handlerGenerate st false env today now =
        (Except.ok it.quiz, st, [Effect.cacheGet])) ∧
    (∀ (st : CacheState) env today now q st2 tr, st.entry = none →
      handlerGenerate st false env today now = (Except.ok q, st2, tr) →
      st2.entry = some { quiz := q, ttl := now + ttlSeconds } ∧
      tr.count Effect.cachePut = 1 ∧
      (∀ env2 today2 now2,
        handlerGenerate st2 false env2 today2 now2 =
          (Except.ok q, st2, [Effect.cacheGet]))) := by
  constructor
  · intro st env today now it h
    exact handlerGenerate_hit st env today now it h
  · intro st env today now q st2 tr h hrun
    rw [handlerGenerate_none st env today now h] at hrun
    obtain ⟨hgen, hst2, htr⟩ :=
      missPath_ok_inv st env today now [Effect.cacheGet] q st2 tr hrun
    subst hst2
    subst htr
    refine ⟨rfl, ?_, ?_⟩
    · have hput : (genEffects env).count Effect.cachePut = 0 :=
        List.count_eq_zero.mpr (cachePut_not_mem_genEffects env)
      simp [List.count_append, List.count_cons, List.count_nil, hput]
    · intro env2 today2 now2
      exact handlerGenerate_hit _ env2 today2 now2 _ rfl

/-- C1 witness: starting from an empty cache, a successful generation run
persists one record with the 7-day expiry and a second call is a pure hit. -/
theorem c1_cache_hit_idempotent_witness :
    ({ entry := some { quiz := zeroQuiz, ttl := 60 + ttlSeconds } } : CacheState).entry =
      some { quiz := zeroQuiz, ttl := 60 + ttlSeconds } ∧
    handlerGenerate { entry := none } false zeroEnv sampleDate 60 =
      (Except.ok zeroQuiz,
       { entry := some { quiz := zeroQuiz, ttl := 60 + ttlSeconds } },
       [Effect.cacheGet, Effect.embedCall, Effect.embedCall, Effect.searchCall,
        Effect.searchCall, Effect.searchCall, Effect.completionCall,
        Effect.completionCall, Effect.completionCall, Effect.completionCall,
        Effect.completionCall, Effect.cachePut]) ∧
    ([Effect.cacheGet, Effect.embedCall, Effect.embedCall, Effect.searchCall,
      Effect.searchCall, Effect.searchCall, Effect.completionCall,
      Effect.completionCall, Effect.completionCall, Effect.completionCall,
      Effect.completionCall, Effect.cachePut].count Effect.cachePut = 1) ∧
    handlerGenerate { entry := some { quiz := zeroQuiz, ttl := 60 + ttlSeconds } }
        false emptyEnv sampleDate 120 =
      (Except.ok zeroQuiz,
       { entry := some { quiz := zeroQuiz, ttl := 60 + ttlSeconds } },
       [Effect.cacheGet]) := by
  refine ⟨rfl, rfl, by decide, ?_⟩
  exact c1_cache_hit_idempotent.1
    { entry := some { quiz := zeroQuiz, ttl := 60 + ttlSeconds } }
    emptyEnv sampleDate 120 { quiz := zeroQuiz, ttl := 60 + ttlSeconds } rfl

/-- C2: the generate route writes the cache only on full success: whenever it
surfaces an error the cache state is exactly the prior one and no put is in
the effect trace, and conversely a put in the trace implies retrieval, all
five synthesis calls, and the returned record all succeeded. -/
theorem c2_no_partial_persist :
    ∀ (st : CacheState) force env today now r st2 tr,
      handlerGenerate st force env today now = (r, st2, tr) →
      ((∃ e, r = Except.error e) → st2 = st ∧ Effect.cachePut ∉ tr) ∧
      (Effect.cachePut ∈ tr →
        (∃ p, retrieve env.retr = Except.ok p) ∧
        (∃ v, generateMCQ env.lcMcqReply = Except.ok v) ∧
        (∃ v, generateMCQ env.resumeMcqReply = Except.ok v) ∧
        (∃ l, generateSTARQuestions env.starReply = Except.ok l) ∧
        (∃ v, generateMCQ env.noteMcqReply = Except.ok v) ∧
        (∃ l, generateTechnicalCodingQuestions env.codeReply = Except.ok l) ∧
        (∃ q, r = Except.ok q)) := by
  have misscase : ∀ (st : CacheState) env today now pre r st2 tr,
      Effect.cachePut ∉ pre →
      missPath st env today now pre = (r, st2, tr) →
      ((∃ e, r = Except.error e) → st2 = st ∧ Effect.cachePut ∉ tr) ∧
      (Effect.cachePut ∈ tr →
        (∃ p, retrieve env.retr = Except.ok p) ∧
        (∃ v, generateMCQ env.lcMcqReply = Except.ok v) ∧
        (∃ v, generateMCQ env.resumeMcqReply = Except.ok v) ∧
        (∃ l, generateSTARQuestions env.starReply = Except.ok l) ∧
        (∃ v, generateMCQ env.noteMcqReply = Except.ok v) ∧
        (∃ l, generateTechnicalCodingQuestions env.codeReply = Except.ok l) ∧
        (∃ q, r = Except.ok q)) := by
    intro st env today now pre r st2 tr hpre hrun
    unfold missPath at hrun
    rcases hgen : generateQuiz env today with e | q0 <;> rw [hgen] at hrun <;>
      simp only [Prod.mk.injEq] at hrun <;> obtain ⟨hr, hst2, htr⟩ := hrun
    · refine ⟨fun _ => ⟨hst2.symm, ?_⟩, fun hmem => ?_⟩
      · rw [← htr]
        intro hmem
        rcases List.mem_append.mp hmem with hm | hm
        · exact hpre hm
        · exact cachePut_not_mem_genEffects env hm
      · subst hr
        exact absurd hmem (by
          rw [← htr]
          intro hmem2
          rcases List.mem_append.mp hmem2 with hm | hm
          · exact hpre hm
          · exact cachePut_not_mem_genEffects env hm)
    · refine ⟨fun hex => ?_, fun _ => ?_⟩
      · obtain ⟨e, he⟩ := hex
        rw [← hr] at he
        cases he
      · obtain inv := generateQuiz_ok_inv env today q0 hgen
        exact ⟨inv.1, inv.2.1, inv.2.2.1, inv.2.2.2.1, inv.2.2.2.2.1,
          inv.2.2.2.2.2, ⟨q0, hr.symm⟩⟩
  intro st force env today now r st2 tr hrun
  unfold handlerGenerate at hrun
  rcases force with _ | _
  · simp only [if_neg Bool.false_ne_true] at hrun
    rcases hentry : st.entry with _ | it <;> rw [hentry] at hrun
    · exact misscase st env today now [Effect.cacheGet] r st2 tr (by simp) hrun
    · simp only [Prod.mk.injEq] at hrun
      obtain ⟨hr, hst2, htr⟩ := hrun
      refine ⟨fun hex => ?_, fun hmem => ?_⟩
      · obtain ⟨e, he⟩ := hex
        rw [← hr] at he
        cases he
      · rw [← htr] at hmem
        simp at hmem
  · simp only [if_pos rfl] at hrun
    exact misscase st env today now [] r st2 tr (by simp) hrun

/-- C2 witness: a run whose STAR synthesis reply is unparseable surfaces the
sanitizer failure, leaves the cache unchanged, and performs no cache write. -/
theorem c2_no_partial_persist_witness :
    handlerGenerate { entry := none } false
        { retr := okRetr, lcMcqReply := emptyObjReply,
          resumeMcqReply := emptyObjReply,
          starReply := some (toChars "no braces here"),
          noteMcqReply := emptyObjReply, codeReply := emptyObjReply }
        sampleDate 60 =
      (Except.error GenError.malformedOutput, { entry := none },
       [Effect.cacheGet, Effect.embedCall, Effect.embedCall, Effect.searchCall,
        Effect.searchCall, Effect.searchCall, Effect.completionCall,
        Effect.completionCall, Effect.completionCall, Effect.completionCall,
        Effect.completionCall]) ∧
    ({ entry := none } : CacheState) = { entry := none } ∧
    Effect.cachePut ∉
      [Effect.cacheGet, Effect.embedCall, Effect.embedCall, Effect.searchCall,
       Effect.searchCall, Effect.searchCall, Effect.completionCall,
       Effect.completionCall, Effect.completionCall, Effect.completionCall,
       Effect.completionCall] := by
  refine ⟨rfl, ?_, ?_⟩
  · exact (c2_no_partial_persist { entry := none } false
      { retr := okRetr, lcMcqReply := emptyObjReply,
        resumeMcqReply := emptyObjReply,
        starReply := some (toChars "no braces here"),
        noteMcqReply := emptyObjReply, codeReply := emptyObjReply }
      sampleDate 60 _ _ _ rfl).1 ⟨GenError.malformedOutput, rfl⟩ |>.1
  · decide

/-- C7: both persistence paths are targeted partial updates.  Writing step
`stp` of STAR question `i` succeeds whenever that question and its progress
map exist, changes nothing but that one step slot — sibling steps, the
question's own data, every other question, and every other record field are
untouched — and writing coding question `i`'s progress replaces only that
question's progress value. -/
theorem c7_targeted_partial_update :
    (∀ (q : Quiz) i stp v sq sp,
      q.resumeQuestions.get? i = some sq → sq.userProgress = some sp →
      ∃ q2, applyStarUpdate q i stp v = Except.ok q2 ∧
        q2.date = q.date ∧ q2.lcProblem = q.lcProblem ∧
        q2.lcAiQuestion = q.lcAiQuestion ∧
        q2.resumeContext = q.resumeContext ∧ q2.resumeMcq = q.resumeMcq ∧
        q2.techContext = q.techContext ∧ q2.techMcq = q.techMcq ∧
        q2.techQuestions = q.techQuestions ∧
        q2.resumeQuestions.length = q.resumeQuestions.length ∧
        (∀ j, j ≠ i → q2.resumeQuestions.get? j = q.resumeQuestions.get? j) ∧
        q2.resumeQuestions.get? i =
          some { data := sq.data, userProgress := some (setStep sp stp v) }) ∧
    (∀ sp v,
      (setStep sp Step.S v).T = sp.T ∧ (setStep sp Step.S v).A = sp.A ∧
      (setStep sp Step.S v).R = sp.R ∧
      (setStep sp Step.T v).S = sp.S ∧ (setStep sp Step.T v).A = sp.A ∧
      (setStep sp Step.T v).R = sp.R ∧
      (setStep sp Step.A v).S = sp.S ∧ (setStep sp Step.A v).T = sp.T ∧
      (setStep sp Step.A v).R = sp.R ∧
      (setStep sp Step.R v).S = sp.S ∧ (setStep sp Step.R v).T = sp.T ∧
      (setStep sp Step.R v).A = sp.A) ∧
    (∀ (q : Quiz) i v cq, q.techQuestions.get? i = some cq →
      ∃ q2, applyCodeUpdate q i v = Except.ok q2 ∧
        q2.date = q.date ∧ q2.lcProblem = q.lcProblem ∧
        q2.lcAiQuestion = q.lcAiQuestion ∧
        q2.resumeContext = q.resumeContext ∧ q2.resumeMcq = q.resumeMcq ∧
        q2.resumeQuestions = q.resumeQuestions ∧
        q2.techContext = q.techContext ∧ q2.techMcq = q.techMcq ∧
        q2.techQuestions.length = q.techQuestions.length ∧
        (∀ j, j ≠ i → q2.techQuestions.get? j = q.techQuestions.get? j) ∧
        q2.techQuestions.get? i =
          some { data := cq.data, userProgress := some v }) := by
  refine ⟨?_, ?_, ?_⟩
  · intro q i stp v sq sp hget hprog
    have hlen : i < q.resumeQuestions.length := by
      rcases List.get?_eq_some.mp hget with ⟨hl, _⟩
      exact hl
    refine ⟨{ q with resumeQuestions := q.resumeQuestions.set i ({ data := sq.data, userProgress := some (setStep sp stp v) }) }, ?_, rfl, rfl, rfl, rfl, rfl, rfl, rfl, rfl, ?_, ?_, ?_⟩
    · simp only [applyStarUpdate, hget, hprog]
    · simp
    · intro j hj
      exact List.get?_set_ne _ _ (Ne.symm hj)
    · exact List.get?_set_eq_of_lt _ hlen
  · intro sp v
    exact ⟨rfl, rfl, rfl, rfl, rfl, rfl, rfl, rfl, rfl, rfl, rfl, rfl⟩
  · intro q i v cq hget
    have hlen : i < q.techQuestions.length := by
      rcases List.get?_eq_some.mp hget with ⟨hl, _⟩
      exact hl
    refine ⟨{ q with techQuestions := q.techQuestions.set i ({ data := cq.data, userProgress := some v }) }, ?_, rfl, rfl, rfl, rfl, rfl, rfl, rfl, rfl, ?_, ?_, ?_⟩
    · simp only [applyCodeUpdate, hget]
    · simp
    · intro j hj
      exact List.get?_set_ne _ _ (Ne.symm hj)
    · exact List.get?_set_eq_of_lt _ hlen

/-- C7 witness: on the one-question sample quiz, writing step T leaves the
coding section alone and installs exactly the one segment, and writing the
coding progress leaves the STAR section alone. -/
theorem c7_targeted_partial_update_witness :
    applyStarUpdate oneQQuiz 0 Step.T wSeg = Except.ok wUpdatedQuiz ∧
    wUpdatedQuiz.techQuestions = oneQQuiz.techQuestions ∧
    wUpdatedQuiz.resumeQuestions.get? 0 =
      some { data := Json.obj []
             userProgress := some (setStep emptyStarProgress Step.T wSeg) } ∧
    applyCodeUpdate oneQQuiz 0 wCodeRes = Except.ok wCodeUpdatedQuiz ∧
    wCodeUpdatedQuiz.resumeQuestions = oneQQuiz.resumeQuestions := by
  obtain ⟨q2, happ, hd, hlp, hla, hrc, hrm, htc, htm, htq, hlen2, hne, hat⟩ :=
    c7_targeted_partial_update.1 oneQQuiz 0 Step.T wSeg
      { data := Json.obj [], userProgress := some emptyStarProgress }
      emptyStarProgress rfl rfl
  obtain ⟨q3, happ2, kd, klp, kla, krc, krm, krq, ktc, ktm, klen, kne, kat⟩ :=
    c7_targeted_partial_update.2.2 oneQQuiz 0 wCodeRes
      { data := Json.obj [], userProgress := none } rfl
  have hq2 : q2 = wUpdatedQuiz := Except.ok.inj (happ.symm.trans rfl)
  have hq3 : q3 = wCodeUpdatedQuiz := Except.ok.inj (happ2.symm.trans rfl)
  subst hq2
  subst hq3
  exact ⟨happ, htq, hat, happ2, krq⟩

/-- C8 counterexample: a run in which every remote call succeeds but the two
batch replies carry no `questions` member assembles and returns a record with
zero STAR questions and zero coding questions — the pipeline never enforces
the requested counts of 5 and 3. -/
theorem c8_counterexample :
    sectionLengths (generateQuiz zeroEnv sampleDate) = some (0, 0) :=
  rfl

/-- C8 amended: every successfully assembled record initializes each STAR
question's progress to the empty S/T/A/R map and each coding question's
progress to null, and its two question lists are exactly the batches the
synthesis replies carried — their lengths are whatever the model returned
(5 and 3 are requested in the prompt, not enforced). -/
theorem c8_progress_init :
    ∀ env today quiz, generateQuiz env today = Except.ok quiz →
      (∀ sq ∈ quiz.resumeQuestions, sq.userProgress = some emptyStarProgress) ∧
      (∀ cq ∈ quiz.techQuestions, cq.userProgress = none) ∧
      (∃ l, generateSTARQuestions env.starReply = Except.ok l ∧
        quiz.resumeQuestions.length = l.length) ∧
      (∃ l, generateTechnicalCodingQuestions env.codeReply = Except.ok l ∧
        quiz.techQuestions.length = l.length) := by
  intro env today quiz h
  obtain ⟨h1, h2, ⟨l1, hl1, hmap1⟩, ⟨l2, hl2, hmap2⟩⟩ :=
    generateQuiz_ok_shape env today quiz h
  refine ⟨h1, h2, ⟨l1, hl1, ?_⟩, ⟨l2, hl2, ?_⟩⟩
  · rw [hmap1, List.length_map]
  · rw [hmap2, List.length_map]

/-- C8 witness: a run whose batch replies carry one question each yields a
record with that one STAR question initialized to the empty progress map and
that one coding question initialized to null progress. -/
theorem c8_progress_init_witness :
    generateQuiz oneQEnv sampleDate = Except.ok oneQQuiz ∧
    (∀ sq ∈ oneQQuiz.resumeQuestions, sq.userProgress = some emptyStarProgress) ∧
    (∀ cq ∈ oneQQuiz.techQuestions, cq.userProgress = none) := by
  refine ⟨rfl, ?_, ?_⟩
  · exact (c8_progress_init oneQEnv sampleDate oneQQuiz rfl).1
  · exact (c8_progress_init oneQEnv sampleDate oneQQuiz rfl).2.1

/-- C9 counterexample: a cached record whose ttl (5) lies before the current
time (1000) is still returned by the non-forcing generate route as a plain
cache hit — the read performs no expiry check and does not regenerate. -/
theorem c9_counterexample :
    (5 : Nat) < 1000 ∧
    handlerGenerate { entry := some { quiz := tinyQuiz, ttl := 5 } } false
        emptyEnv sampleDate 1000 =
      (Except.ok tinyQuiz, { entry := some { quiz := tinyQuiz, ttl := 5 } },
       [Effect.cacheGet]) :=
  ⟨by omega, rfl⟩

/-- C9 amended: the expiry timestamp is written as `now + 7 days` when a
record is persisted, but it is an attribute for the storage layer's background
deletion only — the cache read returns any physically present entry
unconditionally, whatever the relation between its ttl and the current time. -/
theorem c9_ttl_write_only :
    (∀ (st : CacheState) env today now q st2 tr, st.entry = none →
      handlerGenerate st false env today now = (Except.ok q, st2, tr) →
      st2.entry = some { quiz := q, ttl := now + 7 * 24 * 60 * 60 }) ∧
    (∀ (st : CacheState) env today now it, st.entry = some it →
      handlerGenerate st false env today now =
        (Except.ok it.quiz, st, [Effect.cacheGet])) := by
  constructor
  · intro st env today now q st2 tr h hrun
    rw [handlerGenerate_none st env today now h] at hrun
    obtain ⟨-, hst2, -⟩ :=
      missPath_ok_inv st env today now [Effect.cacheGet] q st2 tr hrun
    rw [hst2]
    rfl
  · intro st env today now it h
    exact handlerGenerate_hit st env today now it h

/-- C9 witness: an entry expired long ago is still served, and a fresh
persist stamps `now + 604800`. -/
theorem c9_ttl_write_only_witness :
    handlerGenerate { entry := some { quiz := tinyQuiz, ttl := 5 } } false
        emptyEnv sampleDate 999999 =
      (Except.ok tinyQuiz, { entry := some { quiz := tinyQuiz, ttl := 5 } },
       [Effect.cacheGet]) ∧
    ({ entry := some { quiz := zeroQuiz, ttl := 42 + ttlSeconds } } : CacheState).entry =
      some { quiz := zeroQuiz, ttl := 42 + 7 * 24 * 60 * 60 } := by
  constructor
  · exact c9_ttl_write_only.2 { entry := some { quiz := tinyQuiz, ttl := 5 } }
      emptyEnv sampleDate 999999 { quiz := tinyQuiz, ttl := 5 } rfl
  · exact c9_ttl_write_only.1 { entry := none } zeroEnv sampleDate 42 zeroQuiz
      _ _ rfl rfl

/-- C10: when a synthesis reply parses to an object with no `questions`
member, both batch generators return the empty list instead of failing, and a
generation run whose STAR reply is such an object (all else succeeding)
assembles and persists a record whose resume questions list is empty. -/
theorem c10_missing_questions_empty :
    ∀ raw j fs (env : GenEnv) (st : CacheState) today now,
      cleanResponse raw = some j → j = Json.obj fs →
      jGet j (toChars "questions") = none →
      generateSTARQuestions (some raw) = Except.ok [] ∧
      generateTechnicalCodingQuestions (some raw) = Except.ok [] ∧
      (env.starReply = some raw → st.entry = none →
        ∀ q st2 tr,
          handlerGenerate st false env today now = (Except.ok q, st2, tr) →
          q.resumeQuestions = [] ∧
          st2 = { entry := some { quiz := q, ttl := now + ttlSeconds } } ∧
          Effect.cachePut ∈ tr) := by
  intro raw j fs env st today now hclean hobj hget
  subst hobj
  have hstar : generateSTARQuestions (some raw) = Except.ok [] := by
    simp only [generateSTARQuestions, completeAndClean, hclean,
      questionsOrEmpty, hget]
  have htech : generateTechnicalCodingQuestions (some raw) = Except.ok [] := by
    simp only [generateTechnicalCodingQuestions, completeAndClean, hclean,
      questionsOrEmpty, hget]
  refine ⟨hstar, htech, ?_⟩
  intro hrep hentry q st2 tr hrun
  rw [handlerGenerate_none st env today now hentry] at hrun
  obtain ⟨hgen, hst2, htr⟩ :=
    missPath_ok_inv st env today now [Effect.cacheGet] q st2 tr hrun
  obtain ⟨-, -, ⟨l, hl, hmap⟩, -⟩ := generateQuiz_ok_shape env today q hgen
  rw [hrep, hstar] at hl
  rw [Except.ok.injEq] at hl
  subst hl
  refine ⟨by rw [hmap]; rfl, hst2, ?_⟩
  rw [htr]
  simp

/-- C10 witness: with `{}` replies for the batch calls and everything else
succeeding, the run returns and persists a record with an empty resume
questions list. -/
theorem c10_missing_questions_empty_witness :
    generateSTARQuestions emptyObjReply = Except.ok [] ∧
    generateTechnicalCodingQuestions emptyObjReply = Except.ok [] ∧
    zeroQuiz.resumeQuestions = [] := by
  have h := c10_missing_questions_empty (toChars "\x7b\x7d") (Json.obj []) []
    zeroEnv { entry := none } sampleDate 77 rfl rfl rfl
  refine ⟨h.1, h.2.1, ?_⟩
  exact (h.2.2 rfl rfl zeroQuiz
    { entry := some { quiz := zeroQuiz, ttl := 77 + ttlSeconds } }
    ([Effect.cacheGet] ++ genEffects zeroEnv ++ [Effect.cachePut]) rfl).1

/-- C5 witness: a store with no resume similarity hits but one `any(resume)`
row returns that row. -/
theorem c5_resume_fallback_witness :
    retrieve { leetcodeHits := [sampleLcRow], resumeHits := [],
               noteHits := [sampleNoteRow], anyResume := [sampleResRow],
               lcIdx := 0, resIdx := 0, noteIdx := 0 } =
      Except.ok (sampleLcRow, sampleResRow, sampleNoteRow) :=
  c5_resume_fallback.1
    { leetcodeHits := [sampleLcRow], resumeHits := [],
      noteHits := [sampleNoteRow], anyResume := [sampleResRow],
      lcIdx := 0, resIdx := 0, noteIdx := 0 }
    sampleResRow sampleLcRow sampleNoteRow rfl rfl rfl rfl rfl

end GetQuizzed
